import Mathlib

/-!
Shallow embedding of the rescape-validate runtime validation engine.

The embedding follows the newest (Result-returning) pipeline of the source:
the validateItems / validateItemsResult helpers, the v function wrapper
from functionValidator.js, the validatePropType / vPropOfFunction helpers
from propTypesValidator.js, and the vMergeScope / validateProp pair of the
scope validator. JavaScript runtime values are modelled by the JSValue
inductive; machine-level concerns (stack captures, pretty printing of
values) are display-only in the source and are modelled by total opaque
renderers.
-/

set_option autoImplicit false

namespace RescapeValidate

/-- JavaScript runtime values as far as the validators inspect them:
the two nil values, the three primitive kinds the kind-set strategy
recognises, and plain objects as ordered field lists (JS objects keep
insertion order of keys). -/
inductive JSValue : Type
  | undefined
  | null
  | bool (b : Bool)
  | num (n : Int)
  | str (s : String)
  | obj (fields : List (String × JSValue))
  deriving Repr

mutual

/-- R.equals: deep structural value equality. On this model objects are
ordered field lists with the keys unique by construction, so fieldwise
comparison realises the deep equality R.equals performs; every comparison
the validators make is between values built the same way, where key order
coincides. -/
def JSValue.beq : JSValue → JSValue → Bool
  | JSValue.undefined, JSValue.undefined => true
  | JSValue.null, JSValue.null => true
  | JSValue.bool a, JSValue.bool b => a == b
  | JSValue.num a, JSValue.num b => a == b
  | JSValue.str a, JSValue.str b => a == b
  | JSValue.obj a, JSValue.obj b => JSValue.beqFields a b
  | _, _ => false

/-- Fieldwise equality of two object field lists. -/
def JSValue.beqFields : List (String × JSValue) → List (String × JSValue) → Bool
  | [], [] => true
  | p :: ps, q :: qs => p.1 == q.1 && JSValue.beq p.2 q.2 && JSValue.beqFields ps qs
  | _, _ => false

end

instance : BEq JSValue := ⟨JSValue.beq⟩

/-- R.isNil: true exactly for null and undefined. -/
def jsIsNil : JSValue → Bool
  | JSValue.undefined => true
  | JSValue.null => true
  | _ => false

/-- Property access o[key] on an object field list: undefined when the key
is absent (JS member access on a missing key). -/
def lookupObj (o : List (String × JSValue)) (k : String) : JSValue :=
  match o.find? (fun p => p.1 == k) with
  | some p => p.2
  | none => JSValue.undefined

/-- Whether an object field list carries the given key. -/
def hasKey (o : List (String × JSValue)) (k : String) : Bool :=
  (o.find? (fun p => p.1 == k)).isSome

/-- R.propOr(default, name, v): Ramda defines propOr through pathOr and
defaultTo, so the stored property value is returned only when it is not
nil; a property that is absent, or present but holding null or undefined,
falls back to the default, as does any non-object v. The NaN fallback of
defaultTo has no counterpart here because the model carries no NaN. -/
def propOr (dflt : JSValue) (name : String) (v : JSValue) : JSValue :=
  match v with
  | JSValue.obj fields =>
    match fields.find? (fun p => p.1 == name) with
    | some p => if jsIsNil p.2 then dflt else p.2
    | none => dflt
  | _ => dflt

/-- R.mergeRight(l, r) alias spread of l then r: keys of l keep their
position (overridden by r on collision), fresh keys of r are appended in
order. R.merge in the older scope validator is the same operation. -/
def mergeRight (l r : List (String × JSValue)) : List (String × JSValue) :=
  (l.map (fun p => if hasKey r p.1 then (p.1, lookupObj r p.1) else p))
    ++ r.filter (fun q => !(hasKey l q.1))

/-- Value rendering for failure messages. The source uses prettyFormat or
JSON.stringify here; the spec declares value pretty-printing a boundary
concern out of scope, so objects render opaquely. No claim depends on the
rendering of an object value. -/
def JSValue.display : JSValue → String
  | JSValue.undefined => "undefined"
  | JSValue.null => "null"
  | JSValue.bool b => if b then "true" else "false"
  | JSValue.num n => toString n
  | JSValue.str s => "\"" ++ s ++ "\""
  | JSValue.obj _ => "[object]"

/-- Rendering of an argument list (util.inspect of the args array,
modelled element-wise). -/
def displayArgs (a : List JSValue) : String :=
  "[ " ++ String.intercalate ", " (a.map JSValue.display) ++ " ]"

/-- The primitive kinds a kind-set expectation may list (the JS
constructors String, Number, Object, Boolean passed in the expectation
arrays). -/
inductive Kind : Type
  | string
  | number
  | object
  | boolean
  deriving Repr, DecidableEq

/-- R.type(t()) on a kind constructor t: the display name used in type
failure messages. -/
def Kind.display : Kind → String
  | Kind.string => "String"
  | Kind.number => "Number"
  | Kind.object => "Object"
  | Kind.boolean => "Boolean"

/-- R.is(type, v): whether the runtime kind of v matches the constructor.
Nil values match no constructor; an object matches Object only. -/
def rIs : Kind → JSValue → Bool
  | Kind.string, JSValue.str _ => true
  | Kind.number, JSValue.num _ => true
  | Kind.object, JSValue.obj _ => true
  | Kind.boolean, JSValue.bool _ => true
  | _, _ => false

/-- Structured failure descriptors as constructed by the source (one
constructor per construction site). The error field of the source objects
only captures a stack trace for diagnostics and carries the message
already recorded here, so it is not modelled separately.
typeFailure: validateArgument kind-set mismatch, fields funcName, name,
types, actual. messageFailure: the three engine failures of validateItems
(arity mismatch, wrong argument count, undefined payload), field message.
propFailure: validateProp scope mismatch, fields obj (rendered), prop,
expected, actual. propTypeFailure: validatePropType, fields
componentName, propName and the message of the produced error. -/
inductive Descriptor : Type
  | typeFailure (funcName name : String) (types : List Kind) (actual : JSValue)
  | messageFailure (message : String)
  | propFailure (objDesc prop : String) (expected actual : JSValue)
  | propTypeFailure (componentName propName message : String)
  deriving Repr

/-- The ramda-fantasy-validation applicative: success with a payload, or
failure with the accumulated list of descriptors. -/
inductive Validation (A : Type) : Type
  | success (a : A)
  | failure (errors : List Descriptor)
  deriving Repr

/-- Whether a Validation is a Success (the isSuccess flag of the JS
objects). -/
def Validation.isSuccess {A : Type} : Validation A → Bool
  | Validation.success _ => true
  | Validation.failure _ => false

/-- Functor map of Validation: acts on the success payload only. -/
def Validation.map {A B : Type} (f : A → B) : Validation A → Validation B
  | Validation.success a => Validation.success (f a)
  | Validation.failure es => Validation.failure es

/-- A JS function value as the validators see it: its declared parameter
count (func.length), its name property, and its behaviour on a full
argument list. -/
structure Fn : Type where
  arity : Nat
  name : String
  apply : List JSValue → JSValue

/-- Applicative sequencing of a list of Validation outcomes, exactly the
chain of ap calls performed by Validation.liftAN: all successes collect
their payloads in order, otherwise the failure descriptor lists of every
failing outcome are concatenated left to right. -/
def foldValidations : List (Validation JSValue) → Validation (List JSValue)
  | [] => Validation.success []
  | r :: rs =>
    match r, foldValidations rs with
    | Validation.success v, Validation.success vs => Validation.success (v :: vs)
    | Validation.success _, Validation.failure es => Validation.failure es
    | Validation.failure es, Validation.success _ => Validation.failure es
    | Validation.failure es, Validation.failure es2 => Validation.failure (es ++ es2)

/-- Validation.liftAN(n, func) applied to the n per-item outcomes: call
func on the successful payloads when every outcome succeeded, otherwise
the accumulated failure. -/
def liftAN (func : Fn) (results : List (Validation JSValue)) : Validation JSValue :=
  match foldValidations results with
  | Validation.success vs => Validation.success (func.apply vs)
  | Validation.failure es => Validation.failure es

/-- The descriptor list an outcome contributes to the accumulated
failure: its errors for a failure, nothing for a success. -/
def failurePart : Validation JSValue → List Descriptor
  | Validation.success _ => []
  | Validation.failure es => es

/-- Number of failing outcomes in a list of per-item results. -/
def countFailures (rs : List (Validation JSValue)) : Nat :=
  (rs.filter (fun r => !r.isSuccess)).length

/-- The wrong-argument-count message of validateItems in
validatorHelpers, interpolating the provided count, the expected count
and the rendered argument list. -/
def wrongArgCountMessage (descriptor : String) (a : List JSValue) (expectedLen : Nat) : String :=
  let pl := a.length
  let el := expectedLen
  let av := displayArgs a
  s!"For function {descriptor} wrong number of arguments {pl} provided. Expected {el}. Args provided: {av}"

/-- The arity-mismatch message of validateItems. The source falls back to
the descriptor when func.name is empty (the JS truthiness of func.name),
and interpolates the declared arity, the expectation count and the length
the validators were built for (the expectation count again); the trailing
JSON dump of the expectation list is display-only and out of scope. -/
def arityMismatchMessage {E : Type} (func : Fn) (expectedItems : List (String × E)) (descriptor : String) : String :=
  let fname := if func.name == "" then descriptor else func.name
  let al := func.arity
  let il := expectedItems.length
  s!"Function {fname}: argument length {al} and/or expectedItems length {il} is not matched by validators\x27 length {il}:"

/-- The undefined-payload message of validateItems; the JSON dump of the
offending container is display-only and out of scope. -/
def undefinedValueMessage (descriptor : String) : String :=
  s!"For function {descriptor} unacceptable undefined returned value"

/-- validateItems from validatorHelpers (Result variant): when the
declared arity of func matches the expectation count, the returned
function checks the supplied argument count, runs one item validator per
expectation on the corresponding argument, folds the outcomes with
Validation.liftAN over func, and converts a Success carrying the
undefined value into a failure; when the arity does not match, the
returned function ignores its arguments and always produces the single
arity-mismatch failure. The returned function here takes the full
argument list of the final invocation. -/
def validateItems {E : Type} (func : Fn) (expectedItems : List (String × E))
    (itemValidator : String → String → E → JSValue → Validation JSValue)
    (descriptor : String) : List JSValue → Validation JSValue :=
  if func.arity == expectedItems.length && expectedItems.length == expectedItems.length then
    fun a =>
      if a.length != expectedItems.length then
        Validation.failure [Descriptor.messageFailure (wrongArgCountMessage descriptor a expectedItems.length)]
      else
        let successFailure :=
          liftAN func (List.zipWith (fun p actual => itemValidator descriptor p.1 p.2 actual) expectedItems a)
        match successFailure with
        | Validation.success JSValue.undefined =>
          Validation.failure [Descriptor.messageFailure (undefinedValueMessage descriptor)]
        | sf => sf
  else
    fun _ =>
      Validation.failure [Descriptor.messageFailure (arityMismatchMessage func expectedItems descriptor)]

/-- validateItemsResult: the same validator with the Validation outcome
folded into a Result (Ok on success, Error carrying the descriptor list
on failure). The curryN wrapper of the source collects arguments until
the declared arity is reached; the model receives the complete argument
list of that final invocation. -/
def validateItemsResult {E : Type} (func : Fn) (expectedItems : List (String × E))
    (itemValidator : String → String → E → JSValue → Validation JSValue)
    (descriptor : String) (args : List JSValue) : Except (List Descriptor) JSValue :=
  match validateItems func expectedItems itemValidator descriptor args with
  | Validation.success v => Except.ok v
  | Validation.failure e => Except.error e

/-- An opaque PropType checker capability as the source consumes it: a
function receiving the value under test, the prop name and the component
name (the two further positional arguments of the external convention are
the fixed sentinels location and the secret, which carry no semantics and
are not modelled), returning an Error (here its message) or nothing. A
non-function value supplied where a checker is expected is the malformed
case validatePropType rejects. -/
inductive PropTypeCap : Type
  | fn (check : JSValue → String → String → Option String)
  | notAFunction (v : JSValue)

/-- An expectation for one argument: either an array of allowed kinds
(the R.is(Array) branch of validateArgument) or anything else, which is
handed to the PropType path. -/
inductive Expectation : Type
  | kinds (types : List Kind)
  | propType (p : PropTypeCap)

/-- validatePropType from propTypesValidator.js: reject a non-function
checker with the TypeChecker message, otherwise invoke the checker and
turn a returned Error into a failure carrying its message; on success
Validation.of() carries no value (the undefined payload), which callers
map to the value they need. -/
def validatePropType (componentName propName : String) (propType : PropTypeCap) (props : JSValue) : Validation JSValue :=
  match propType with
  | PropTypeCap.notAFunction _ =>
    Validation.failure [Descriptor.propTypeFailure componentName propName "TypeChecker should be a function"]
  | PropTypeCap.fn check =>
    match check props propName componentName with
    | some msg => Validation.failure [Descriptor.propTypeFailure componentName propName msg]
    | none => Validation.success JSValue.undefined

/-- vPropOfFunction: a single PropType validation of the actual value,
with a success mapped back to the actual value that was tested. -/
def vPropOfFunction (propType : PropTypeCap) (funcName name : String) (actual : JSValue) : Validation JSValue :=
  (validatePropType funcName name propType actual).map (fun _ => actual)

/-- validateArgument from functionValidator.js: a kind-set expectation
succeeds with the actual value when the value matches any listed kind and
otherwise fails with a descriptor carrying the full kind list and the
actual value; any other expectation goes through the PropType path. -/
def validateArgument (funcName name : String) (typesOrPropType : Expectation) (actual : JSValue) : Validation JSValue :=
  match typesOrPropType with
  | Expectation.kinds types =>
    if types.any (fun t => rIs t actual) then
      Validation.success actual
    else
      Validation.failure [Descriptor.typeFailure funcName name types actual]
  | Expectation.propType p => vPropOfFunction p funcName name actual

/-- Rendering of the allowed kind list in type failure messages. -/
def displayTypes (types : List Kind) : String :=
  String.intercalate ", " (types.map Kind.display)

/-- The error-to-message mapping v installs at the Result boundary: a
descriptor with a types field renders the kind-set template, every other
descriptor renders the message of its captured error. The stack suffix
each template appends is a captured stack trace, display-only and out of
scope (the test helper strips it before comparing). -/
def renderVError : Descriptor → String
  | Descriptor.typeFailure funcName name types actual =>
    let ts := displayTypes types
    let av := actual.display
    s!"Function {funcName}, Requires {name} as one of {ts}, but got {av}"
  | Descriptor.messageFailure message => s!"Error: {message}"
  | Descriptor.propTypeFailure _ _ message => s!"Error: {message}"
  | Descriptor.propFailure _ _ _ _ => "Error: Validation error"

/-- Modelled from the spec: mappedThrowIfResultError lives in the
rescape-ramda dependency, not in this repository. Per the Result and
Exception Boundary contract it returns the Ok payload unchanged and
otherwise raises one error whose message concatenates the rendered text
of every descriptor, joined by a deterministic separator; the separator
is the semicolon-space the expectValidationError helper splits on. A
raised error is modelled as the Except error case. -/
def mappedThrowIfResultError (render : Descriptor → String) : Except (List Descriptor) JSValue → Except String JSValue
  | Except.ok v => Except.ok v
  | Except.error ds => Except.error (String.intercalate "; " (ds.map render))

/-- v from functionValidator.js: curry by the declared arity of func,
validate every argument with validateArgument, raise the rendered
failures at the boundary and extract the Ok payload otherwise. The
functionName argument is the explicit name (the source defaults it to
func.name); the model receives the complete argument list of the final
invocation. -/
def v (func : Fn) (expectedItems : List (String × Expectation)) (functionName : String)
    (args : List JSValue) : Except String JSValue :=
  mappedThrowIfResultError renderVError
    (validateItemsResult func expectedItems validateArgument functionName args)

/-- validateProp from the scope validator: the actual value is first
reduced by R.propOr(actual, id, actual), so an object carrying a non-nil
id field is compared through that id, while an absent or nil id leaves
the raw value in place; a nil reduced value or one equal to the expected
scope value succeeds (with the reduced value as payload), anything else
fails with a descriptor naming the object, the prop, the expected value
and the reduced actual. -/
def validateProp (objDesc prop : String) (expected actual : JSValue) : Validation JSValue :=
  let reduced := propOr actual "id" actual
  if jsIsNil reduced || reduced == expected then
    Validation.success reduced
  else
    Validation.failure [Descriptor.propFailure objDesc prop expected reduced]

/-- The error-to-message mapping vMergeScope installs at the boundary; it
destructures the obj, prop, expected and actual fields of a scope
descriptor (stack suffix again out of scope). Only propFailure
descriptors can reach this renderer in the vMergeScope pipeline; the
remaining branches are totality fillers. -/
def renderScopeError : Descriptor → String
  | Descriptor.propFailure objDesc prop expected actual =>
    let ev := expected.display
    let av := actual.display
    s!"{objDesc}, Requires {prop} to equal {ev}, but got {av}"
  | Descriptor.messageFailure message => message
  | Descriptor.typeFailure _ name _ _ => name
  | Descriptor.propTypeFailure _ _ message => message

/-- vMergeScope before the exception boundary: the scope keys give the
expected pairs and the corresponding object properties the actual values;
the lifted merge function ignores the validated values and returns obj
merged with scope (scope wins on collisions). The object itself is the
descriptor of the run; it reaches messages only through its rendering. -/
def vMergeScopeResult (scope objct : List (String × JSValue)) : Except (List Descriptor) JSValue :=
  validateItemsResult
    ⟨(scope.map Prod.fst).length, "", fun _ => JSValue.obj (mergeRight objct scope)⟩
    ((scope.map Prod.fst).map (fun k => (k, lookupObj scope k)))
    validateProp
    (JSValue.obj objct).display
    ((scope.map Prod.fst).map (fun k => lookupObj objct k))

/-- vMergeScope from the scope validator: validate every scope key
against the object and either raise the rendered failures or return the
merged object. -/
def vMergeScope (scope objct : List (String × JSValue)) : Except String JSValue :=
  mappedThrowIfResultError renderScopeError (vMergeScopeResult scope objct)

/-- The list of per-argument outcomes the wrapped function folds: one
validateArgument run per expectation, paired positionally with the
supplied arguments. -/
def argResults (fname : String) (items : List (String × Expectation)) (args : List JSValue) :
    List (Validation JSValue) :=
  List.zipWith (fun p a => validateArgument fname p.1 p.2 a) items args

/-- Zipping two images of one list combines pointwise. -/
theorem zipWith_map_same {α β γ δ : Type} (f : β → γ → δ) (g : α → β) (h : α → γ) (l : List α) :
    List.zipWith f (l.map g) (l.map h) = l.map (fun x => f (g x) (h x)) := by
  induction l with
  | nil => rfl
  | cons x xs ih => simp [ih]

/-- Unfolding of the applicative fold on a cons cell. -/
theorem foldValidations_cons (r : Validation JSValue) (rs : List (Validation JSValue)) :
    foldValidations (r :: rs) =
      match r, foldValidations rs with
      | Validation.success v, Validation.success vs => Validation.success (v :: vs)
      | Validation.success _, Validation.failure es => Validation.failure es
      | Validation.failure es, Validation.success _ => Validation.failure es
      | Validation.failure es, Validation.failure es2 => Validation.failure (es ++ es2) := rfl

/-- When every zipped validator succeeds with its argument as payload,
the fold succeeds with the argument list. -/
theorem foldValidations_forall2 {α : Type} (f : α → JSValue → Validation JSValue)
    {items : List α} {args : List JSValue}
    (h : List.Forall₂ (fun p a => f p a = Validation.success a) items args) :
    foldValidations (List.zipWith f items args) = Validation.success args := by
  induction h with
  | nil => rfl
  | cons h1 _ ih => rw [List.zipWith_cons_cons, foldValidations_cons, h1, ih]

/-- When every mapped validator succeeds with a computable payload, the
fold succeeds with the payload list. -/
theorem foldValidations_map_success {α : Type} (g : α → Validation JSValue) (pay : α → JSValue)
    (l : List α) (h : ∀ x ∈ l, g x = Validation.success (pay x)) :
    foldValidations (l.map g) = Validation.success (l.map pay) := by
  induction l with
  | nil => rfl
  | cons x xs ih =>
    rw [List.map_cons, foldValidations_cons, h x (List.mem_cons_self x xs),
      ih (fun y hy => h y (List.mem_cons_of_mem x hy)), List.map_cons]

/-- A successful fold forces every outcome to be a success. -/
theorem foldValidations_success_all {rs : List (Validation JSValue)} {vs : List JSValue}
    (h : foldValidations rs = Validation.success vs) : ∀ r ∈ rs, r.isSuccess = true := by
  induction rs generalizing vs with
  | nil => intro r hr; cases hr
  | cons r rs ih =>
    intro x hx
    rw [foldValidations_cons] at h
    cases r with
    | success a =>
      cases hfold : foldValidations rs with
      | success ws =>
        rcases List.mem_cons.mp hx with hx | hx
        · rw [hx]; rfl
        · exact ih hfold x hx
      | failure es => rw [hfold] at h; cases h
    | failure es =>
      cases hfold : foldValidations rs with
      | success ws => rw [hfold] at h; cases h
      | failure es2 => rw [hfold] at h; cases h

/-- The descriptor parts of a list of successes flatten to nothing. -/
theorem join_failureParts_nil {rs : List (Validation JSValue)}
    (h : ∀ r ∈ rs, r.isSuccess = true) : List.flatten (rs.map failurePart) = [] := by
  induction rs with
  | nil => rfl
  | cons r rs ih =>
    have hr : r.isSuccess = true := h r (List.mem_cons_self r rs)
    have hrest : List.flatten (rs.map failurePart) = [] :=
      ih (fun y hy => h y (List.mem_cons_of_mem r hy))
    cases r with
    | success a => simp [failurePart, hrest]
    | failure es => cases hr

/-- A failing fold carries exactly the concatenated descriptor parts of
the outcomes, in order. -/
theorem foldValidations_failure_join {rs : List (Validation JSValue)} {es : List Descriptor}
    (h : foldValidations rs = Validation.failure es) :
    es = List.flatten (rs.map failurePart) := by
  induction rs generalizing es with
  | nil => cases h
  | cons r rs ih =>
    rw [foldValidations_cons] at h
    cases r with
    | success a =>
      cases hfold : foldValidations rs with
      | success ws => rw [hfold] at h; cases h
      | failure es2 =>
        rw [hfold] at h
        cases h
        simp [failurePart, ih hfold]
    | failure es1 =>
      cases hfold : foldValidations rs with
      | success ws =>
        rw [hfold] at h
        cases h
        simp [failurePart, join_failureParts_nil (foldValidations_success_all hfold)]
      | failure es2 =>
        rw [hfold] at h
        cases h
        simp [failurePart, ih hfold]

/-- As soon as one outcome fails, the fold fails and accumulates every
descriptor part in order. -/
theorem foldValidations_failure_of_mem {rs : List (Validation JSValue)}
    (h : ∃ r ∈ rs, r.isSuccess = false) :
    foldValidations rs = Validation.failure (List.flatten (rs.map failurePart)) := by
  cases hfold : foldValidations rs with
  | success vs =>
    rcases h with ⟨r, hr, hfail⟩
    rw [foldValidations_success_all hfold r hr] at hfail
    cases hfail
  | failure es => rw [← foldValidations_failure_join hfold]

/-- A positive failure count exhibits a failing outcome. -/
theorem exists_failure_of_countFailures_pos {rs : List (Validation JSValue)}
    (h : 0 < countFailures rs) : ∃ r ∈ rs, r.isSuccess = false := by
  unfold countFailures at h
  rcases List.exists_mem_of_length_pos h with ⟨r, hr⟩
  rcases List.mem_filter.mp hr with ⟨hmem, hp⟩
  exact ⟨r, hmem, by simpa using hp⟩

/-- When every outcome contributes zero or one descriptor according to
its success flag, the flattened descriptor list counts exactly the
failing outcomes. -/
theorem join_failureParts_length {rs : List (Validation JSValue)}
    (h : ∀ r ∈ rs, (failurePart r).length = if r.isSuccess then 0 else 1) :
    (List.flatten (rs.map failurePart)).length = countFailures rs := by
  induction rs with
  | nil => rfl
  | cons r rs ih =>
    have hr := h r (List.mem_cons_self r rs)
    have hrest := ih (fun y hy => h y (List.mem_cons_of_mem r hy))
    have hcons : countFailures (r :: rs) = (if r.isSuccess then 0 else 1) + countFailures rs := by
      unfold countFailures
      rw [List.filter_cons]
      cases hs : r.isSuccess <;> simp [hs, Nat.add_comm]
    rw [List.map_cons, List.flatten_cons, List.length_append, hrest, hcons, hr]

/-- With matching arity and argument count, validateItems reduces to the
undefined-guarded fold of the per-item outcomes. -/
theorem validateItems_run {E : Type} (func : Fn) (items : List (String × E))
    (iv : String → String → E → JSValue → Validation JSValue) (d : String) (args : List JSValue)
    (hlen : func.arity = items.length) (hargs : args.length = items.length) :
    validateItems func items iv d args =
      match liftAN func (List.zipWith (fun p a => iv d p.1 p.2 a) items args) with
      | Validation.success JSValue.undefined =>
        Validation.failure [Descriptor.messageFailure (undefinedValueMessage d)]
      | sf => sf := by
  unfold validateItems
  rw [if_pos (by simp [hlen]), if_neg (by simp [hargs])]

/-- With mismatched arity, validateItems ignores its arguments and
produces the single arity-mismatch failure. -/
theorem validateItems_mismatch {E : Type} (func : Fn) (items : List (String × E))
    (iv : String → String → E → JSValue → Validation JSValue) (d : String) (args : List JSValue)
    (h : func.arity ≠ items.length) :
    validateItems func items iv d args =
      Validation.failure [Descriptor.messageFailure (arityMismatchMessage func items d)] := by
  unfold validateItems
  rw [if_neg (by simp [h])]

/-- With matching arity but the wrong argument count, validateItems
produces the single wrong-argument-count failure. -/
theorem validateItems_wrong_count {E : Type} (func : Fn) (items : List (String × E))
    (iv : String → String → E → JSValue → Validation JSValue) (d : String) (args : List JSValue)
    (hlen : func.arity = items.length) (hargs : args.length ≠ items.length) :
    validateItems func items iv d args =
      Validation.failure [Descriptor.messageFailure (wrongArgCountMessage d args items.length)] := by
  unfold validateItems
  rw [if_pos (by simp [hlen]), if_pos (by simp [hargs])]

/-- Lifting over a successful fold calls the wrapped function on the
collected payloads. -/
theorem liftAN_success {func : Fn} {rs : List (Validation JSValue)} {vs : List JSValue}
    (h : foldValidations rs = Validation.success vs) :
    liftAN func rs = Validation.success (func.apply vs) := by
  unfold liftAN
  rw [h]

/-- Lifting over a failed fold passes the accumulated failure through. -/
theorem liftAN_failure {func : Fn} {rs : List (Validation JSValue)} {es : List Descriptor}
    (h : foldValidations rs = Validation.failure es) :
    liftAN func rs = Validation.failure es := by
  unfold liftAN
  rw [h]

/-- With matching lengths and a failing fold, validateItems propagates
the accumulated failure unchanged. -/
theorem validateItems_fold_failure {E : Type} {func : Fn} {items : List (String × E)}
    {iv : String → String → E → JSValue → Validation JSValue} {d : String} {args : List JSValue}
    {es : List Descriptor}
    (hlen : func.arity = items.length) (hargs : args.length = items.length)
    (hfold : foldValidations (List.zipWith (fun p a => iv d p.1 p.2 a) items args)
      = Validation.failure es) :
    validateItems func items iv d args = Validation.failure es := by
  rw [validateItems_run func items iv d args hlen hargs, liftAN_failure hfold]

/-- With matching lengths, a successful fold and a defined return value,
validateItems succeeds with the value the wrapped function returned. -/
theorem validateItems_fold_success {E : Type} {func : Fn} {items : List (String × E)}
    {iv : String → String → E → JSValue → Validation JSValue} {d : String} {args : List JSValue}
    {vs : List JSValue}
    (hlen : func.arity = items.length) (hargs : args.length = items.length)
    (hfold : foldValidations (List.zipWith (fun p a => iv d p.1 p.2 a) items args)
      = Validation.success vs)
    (hdef : func.apply vs ≠ JSValue.undefined) :
    validateItems func items iv d args = Validation.success (func.apply vs) := by
  rw [validateItems_run func items iv d args hlen hargs, liftAN_success hfold]
  cases happ : func.apply vs with
  | undefined => exact absurd happ hdef
  | null => rfl
  | bool b => rfl
  | num n => rfl
  | str s => rfl
  | obj fields => rfl

/-- With matching lengths, a successful fold but an undefined return
value, validateItems converts the success into the engine failure. -/
theorem validateItems_fold_undefined {E : Type} {func : Fn} {items : List (String × E)}
    {iv : String → String → E → JSValue → Validation JSValue} {d : String} {args : List JSValue}
    {vs : List JSValue}
    (hlen : func.arity = items.length) (hargs : args.length = items.length)
    (hfold : foldValidations (List.zipWith (fun p a => iv d p.1 p.2 a) items args)
      = Validation.success vs)
    (hundef : func.apply vs = JSValue.undefined) :
    validateItems func items iv d args
      = Validation.failure [Descriptor.messageFailure (undefinedValueMessage d)] := by
  rw [validateItems_run func items iv d args hlen hargs, liftAN_success hfold, hundef]

/-- Any success of validateItems carries a value produced by the wrapped
function. -/
theorem validateItems_success_value {E : Type} {func : Fn} {items : List (String × E)}
    {iv : String → String → E → JSValue → Validation JSValue} {d : String} {args : List JSValue}
    {val : JSValue} (h : validateItems func items iv d args = Validation.success val) :
    ∃ vs, val = func.apply vs := by
  by_cases hlen : func.arity = items.length
  · by_cases hargs : args.length = items.length
    · cases hfold : foldValidations (List.zipWith (fun p a => iv d p.1 p.2 a) items args) with
      | success vs =>
        by_cases hdef : func.apply vs = JSValue.undefined
        · rw [validateItems_fold_undefined hlen hargs hfold hdef] at h
          cases h
        · rw [validateItems_fold_success hlen hargs hfold hdef] at h
          exact ⟨vs, (Validation.success.inj h).symm⟩
      | failure es =>
        rw [validateItems_fold_failure hlen hargs hfold] at h
        cases h
    · rw [validateItems_wrong_count func items iv d args hlen hargs] at h
      cases h
  · rw [validateItems_mismatch func items iv d args hlen] at h
    cases h

/-- The success of a kind-set or PropType argument validation always
carries the actual value as payload. -/
theorem validateArgument_success_payload {funcName name : String} {e : Expectation} {a : JSValue}
    (h : (validateArgument funcName name e a).isSuccess = true) :
    validateArgument funcName name e a = Validation.success a := by
  cases e with
  | kinds types =>
    simp only [validateArgument] at h ⊢
    by_cases hany : (types.any fun t => rIs t a) = true
    · rw [if_pos hany]
    · rw [if_neg hany] at h
      cases h
  | propType p =>
    cases p with
    | notAFunction w =>
      simp [validateArgument, vPropOfFunction, validatePropType, Validation.map,
        Validation.isSuccess] at h
    | fn check =>
      simp only [validateArgument, vPropOfFunction, validatePropType] at h ⊢
      cases hc : check a name funcName with
      | none => simp [hc, Validation.map]
      | some msg => simp [hc, Validation.map, Validation.isSuccess] at h

/-- Each argument validation contributes exactly one descriptor on
failure and none on success. -/
theorem validateArgument_failurePart_length (funcName name : String) (e : Expectation) (a : JSValue) :
    (failurePart (validateArgument funcName name e a)).length
      = if (validateArgument funcName name e a).isSuccess then 0 else 1 := by
  cases e with
  | kinds types =>
    simp only [validateArgument]
    by_cases hany : (types.any fun t => rIs t a) = true
    · simp [hany, failurePart, Validation.isSuccess]
    · simp [hany, failurePart, Validation.isSuccess]
  | propType p =>
    cases p with
    | notAFunction w =>
      simp [validateArgument, vPropOfFunction, validatePropType, Validation.map,
        Validation.isSuccess, failurePart]
    | fn check =>
      have H : ∀ o : Option String,
          (failurePart (Validation.map (fun _ => a)
            (match o with
             | some msg => Validation.failure [Descriptor.propTypeFailure funcName name msg]
             | none => Validation.success JSValue.undefined))).length
          = if (Validation.map (fun _ => a)
              (match o with
               | some msg => Validation.failure [Descriptor.propTypeFailure funcName name msg]
               | none => Validation.success JSValue.undefined)).isSuccess then 0 else 1 := by
        intro o
        cases o <;> simp [Validation.map, Validation.isSuccess, failurePart]
      simpa only [validateArgument, vPropOfFunction, validatePropType] using H (check a name funcName)

/-- Every member of a zipped list is an image of the zipping function. -/
theorem mem_zipWith {α β γ : Type} {f : α → β → γ} {l₁ : List α} {l₂ : List β} {c : γ}
    (h : c ∈ List.zipWith f l₁ l₂) : ∃ x y, c = f x y := by
  induction l₁ generalizing l₂ with
  | nil => cases h
  | cons x xs ih =>
    cases l₂ with
    | nil => cases h
    | cons y ys =>
      rw [List.zipWith_cons_cons] at h
      rcases List.mem_cons.mp h with h | h
      · exact ⟨x, y, h⟩
      · exact ih h

/-- C1 (amended): when the expectation count matches the declared arity,
every supplied argument individually satisfies its expectation, and the
underlying function returns a defined value on those arguments, the
wrapped function returns exactly that value. The definedness proviso is
forced by the undefined-payload invariant: an undefined return is turned
into a raised engine failure instead. -/
theorem v_returns_func_value (func : Fn) (items : List (String × Expectation)) (fname : String)
    (args : List JSValue)
    (hlen : func.arity = items.length)
    (hok : List.Forall₂ (fun p a => (validateArgument fname p.1 p.2 a).isSuccess = true) items args)
    (hdef : func.apply args ≠ JSValue.undefined) :
    v func items fname args = Except.ok (func.apply args) := by
  have hargs : args.length = items.length := (List.Forall₂.length_eq hok).symm
  have hfold : foldValidations
      (List.zipWith (fun p a => validateArgument fname p.1 p.2 a) items args)
      = Validation.success args :=
    foldValidations_forall2 _
      (List.Forall₂.imp (fun p a h => validateArgument_success_payload h) hok)
  have hitems := validateItems_fold_success hlen hargs hfold hdef
  unfold v validateItemsResult
  rw [hitems]
  rfl

/-- C1 witness: a unary function returning the string ok, one matching
kind expectation and one matching argument. -/
theorem v_returns_func_value_witness :
    v ⟨1, "g", fun _ => JSValue.str "ok"⟩ [("x", Expectation.kinds [Kind.number])] "g" [JSValue.num 3]
      = Except.ok (Fn.apply ⟨1, "g", fun _ => JSValue.str "ok"⟩ [JSValue.num 3]) :=
  v_returns_func_value ⟨1, "g", fun _ => JSValue.str "ok"⟩ [("x", Expectation.kinds [Kind.number])]
    "g" [JSValue.num 3] rfl (List.Forall₂.cons rfl List.Forall₂.nil)
    (fun h => JSValue.noConfusion h)

/-- C1 counterexample: a unary function returning undefined on its
validated argument. The argument satisfies its expectation, yet the
wrapped call does not return the value the function would return; the
undefined success payload is converted into a raised engine failure. -/
theorem v_undefined_return_cex :
    (validateArgument "f" "x" (Expectation.kinds [Kind.string]) (JSValue.str "a")).isSuccess = true
    ∧ Fn.apply ⟨1, "f", fun _ => JSValue.undefined⟩ [JSValue.str "a"] = JSValue.undefined
    ∧ v ⟨1, "f", fun _ => JSValue.undefined⟩ [("x", Expectation.kinds [Kind.string])] "f"
        [JSValue.str "a"]
      ≠ Except.ok (Fn.apply ⟨1, "f", fun _ => JSValue.undefined⟩ [JSValue.str "a"]) :=
  ⟨rfl, rfl, fun h => Except.noConfusion h⟩

/-- C2: when the arity matches, the final argument count matches and at
least two arguments violate their expectations, the raised error renders
the concatenated descriptors of every violated expectation in original
order, with exactly one descriptor per violated expectation: the engine
never reports only the first failure. -/
theorem v_reports_every_failure (func : Fn) (items : List (String × Expectation)) (fname : String)
    (args : List JSValue)
    (hlen : func.arity = items.length) (hargs : args.length = items.length)
    (hmulti : 2 ≤ countFailures (argResults fname items args)) :
    v func items fname args
      = Except.error (String.intercalate "; "
          ((List.flatten ((argResults fname items args).map failurePart)).map renderVError))
    ∧ (List.flatten ((argResults fname items args).map failurePart)).length
      = countFailures (argResults fname items args)
    ∧ ∀ r ∈ argResults fname items args,
        (failurePart r).length = if r.isSuccess then 0 else 1 := by
  have hsing : ∀ r ∈ argResults fname items args,
      (failurePart r).length = if r.isSuccess then 0 else 1 := by
    intro r hr
    rcases mem_zipWith hr with ⟨p, a, rfl⟩
    exact validateArgument_failurePart_length fname p.1 p.2 a
  have hpos : 0 < countFailures (argResults fname items args) :=
    Nat.lt_of_lt_of_le (by norm_num) hmulti
  have hfold := foldValidations_failure_of_mem (exists_failure_of_countFailures_pos hpos)
  have hitems := validateItems_fold_failure hlen hargs hfold
  refine ⟨?_, join_failureParts_length hsing, hsing⟩
  unfold v validateItemsResult
  rw [hitems]
  rfl

/-- C2 witness: the three kind expectations of the repository test,
violated by null, 1 and null, give three ordered rendered failures. -/
theorem v_reports_every_failure_witness :
    2 ≤ countFailures (argResults "funky"
        [("type", Expectation.kinds [Kind.string]),
         ("ret", Expectation.kinds [Kind.object, Kind.string]),
         ("obj", Expectation.kinds [Kind.object])]
        [JSValue.null, JSValue.num 1, JSValue.null])
    ∧ (v ⟨3, "funky", fun _ => JSValue.obj []⟩
        [("type", Expectation.kinds [Kind.string]),
         ("ret", Expectation.kinds [Kind.object, Kind.string]),
         ("obj", Expectation.kinds [Kind.object])]
        "funky" [JSValue.null, JSValue.num 1, JSValue.null]
      = Except.error (String.intercalate "; "
          ((List.flatten ((argResults "funky"
            [("type", Expectation.kinds [Kind.string]),
             ("ret", Expectation.kinds [Kind.object, Kind.string]),
             ("obj", Expectation.kinds [Kind.object])]
            [JSValue.null, JSValue.num 1, JSValue.null]).map failurePart)).map renderVError))
      ∧ (List.flatten ((argResults "funky"
            [("type", Expectation.kinds [Kind.string]),
             ("ret", Expectation.kinds [Kind.object, Kind.string]),
             ("obj", Expectation.kinds [Kind.object])]
            [JSValue.null, JSValue.num 1, JSValue.null]).map failurePart)).length
        = countFailures (argResults "funky"
            [("type", Expectation.kinds [Kind.string]),
             ("ret", Expectation.kinds [Kind.object, Kind.string]),
             ("obj", Expectation.kinds [Kind.object])]
            [JSValue.null, JSValue.num 1, JSValue.null])
      ∧ ∀ r ∈ argResults "funky"
            [("type", Expectation.kinds [Kind.string]),
             ("ret", Expectation.kinds [Kind.object, Kind.string]),
             ("obj", Expectation.kinds [Kind.object])]
            [JSValue.null, JSValue.num 1, JSValue.null],
          (failurePart r).length = if r.isSuccess then 0 else 1) :=
  ⟨by decide,
    v_reports_every_failure ⟨3, "funky", fun _ => JSValue.obj []⟩
      [("type", Expectation.kinds [Kind.string]),
       ("ret", Expectation.kinds [Kind.object, Kind.string]),
       ("obj", Expectation.kinds [Kind.object])]
      "funky" [JSValue.null, JSValue.num 1, JSValue.null] rfl rfl (by decide)⟩

/-- C3: when the expectation count differs from the declared arity, fully
applying the wrapped callable to any arguments yields the single deferred
arity-mismatch failure, rendered as the only raised error and never a
type-violation failure; wrap time itself constructs only closures and
cannot raise. -/
theorem v_arity_mismatch_deferred (func : Fn) (items : List (String × Expectation)) (fname : String)
    (args : List JSValue) (h : func.arity ≠ items.length) :
    validateItemsResult func items validateArgument fname args
      = Except.error [Descriptor.messageFailure (arityMismatchMessage func items fname)]
    ∧ v func items fname args
      = Except.error (renderVError (Descriptor.messageFailure (arityMismatchMessage func items fname))) := by
  have hitems := validateItems_mismatch func items validateArgument fname args h
  constructor
  · unfold validateItemsResult
    rw [hitems]
  · unfold v validateItemsResult
    rw [hitems]
    rfl

/-- C3 witness: a function of arity two wrapped with three expectations,
applied to two arguments. -/
theorem v_arity_mismatch_deferred_witness :
    validateItemsResult ⟨2, "funky", fun _ => JSValue.obj []⟩
        [("type", Expectation.kinds [Kind.string]),
         ("ret", Expectation.kinds [Kind.object, Kind.string]),
         ("obj", Expectation.kinds [Kind.object])]
        validateArgument "funky" [JSValue.str "dont", JSValue.obj []]
      = Except.error [Descriptor.messageFailure (arityMismatchMessage
          ⟨2, "funky", fun _ => JSValue.obj []⟩
          [("type", Expectation.kinds [Kind.string]),
           ("ret", Expectation.kinds [Kind.object, Kind.string]),
           ("obj", Expectation.kinds [Kind.object])] "funky")]
    ∧ v ⟨2, "funky", fun _ => JSValue.obj []⟩
        [("type", Expectation.kinds [Kind.string]),
         ("ret", Expectation.kinds [Kind.object, Kind.string]),
         ("obj", Expectation.kinds [Kind.object])]
        "funky" [JSValue.str "dont", JSValue.obj []]
      = Except.error (renderVError (Descriptor.messageFailure (arityMismatchMessage
          ⟨2, "funky", fun _ => JSValue.obj []⟩
          [("type", Expectation.kinds [Kind.string]),
           ("ret", Expectation.kinds [Kind.object, Kind.string]),
           ("obj", Expectation.kinds [Kind.object])] "funky"))) :=
  v_arity_mismatch_deferred ⟨2, "funky", fun _ => JSValue.obj []⟩
    [("type", Expectation.kinds [Kind.string]),
     ("ret", Expectation.kinds [Kind.object, Kind.string]),
     ("obj", Expectation.kinds [Kind.object])]
    "funky" [JSValue.str "dont", JSValue.obj []] (by decide)

/-- C6: a Success whose payload is undefined never escapes validateItems,
and whenever the lifted fold yields the undefined payload under matching
lengths, the outcome is converted into the engine-level undefined-value
failure. -/
theorem validateItems_undefined_guard {E : Type} (func : Fn) (items : List (String × E))
    (iv : String → String → E → JSValue → Validation JSValue) (d : String) (args : List JSValue) :
    validateItems func items iv d args ≠ Validation.success JSValue.undefined
    ∧ (func.arity = items.length → args.length = items.length →
      liftAN func (List.zipWith (fun p a => iv d p.1 p.2 a) items args)
        = Validation.success JSValue.undefined →
      validateItems func items iv d args
        = Validation.failure [Descriptor.messageFailure (undefinedValueMessage d)]) := by
  constructor
  · by_cases hlen : func.arity = items.length
    · by_cases hargs : args.length = items.length
      · cases hfold : foldValidations (List.zipWith (fun p a => iv d p.1 p.2 a) items args) with
        | success vs =>
          by_cases hdef : func.apply vs = JSValue.undefined
          · rw [validateItems_fold_undefined hlen hargs hfold hdef]
            intro h
            cases h
          · rw [validateItems_fold_success hlen hargs hfold hdef]
            intro h
            exact hdef (Validation.success.inj h)
        | failure es =>
          rw [validateItems_fold_failure hlen hargs hfold]
          intro h
          cases h
      · rw [validateItems_wrong_count func items iv d args hlen hargs]
        intro h
        cases h
    · rw [validateItems_mismatch func items iv d args hlen]
      intro h
      cases h
  · intro hlen hargs hlift
    have hex : ∃ vs, foldValidations (List.zipWith (fun p a => iv d p.1 p.2 a) items args)
        = Validation.success vs ∧ func.apply vs = JSValue.undefined := by
      unfold liftAN at hlift
      cases hfold : foldValidations (List.zipWith (fun p a => iv d p.1 p.2 a) items args) with
      | success vs =>
        rw [hfold] at hlift
        exact ⟨vs, rfl, Validation.success.inj hlift⟩
      | failure es =>
        rw [hfold] at hlift
        cases hlift
    rcases hex with ⟨vs, hfold, hdef⟩
    exact validateItems_fold_undefined hlen hargs hfold hdef

/-- C6 witness: a unary function returning undefined on its validated
argument triggers the converted engine failure. -/
theorem validateItems_undefined_guard_witness :
    validateItems ⟨1, "u", fun _ => JSValue.undefined⟩ [("x", Expectation.kinds [Kind.number])]
        validateArgument "u" [JSValue.num 1]
      = Validation.failure [Descriptor.messageFailure (undefinedValueMessage "u")] :=
  (validateItems_undefined_guard ⟨1, "u", fun _ => JSValue.undefined⟩
      [("x", Expectation.kinds [Kind.number])] validateArgument "u" [JSValue.num 1]).2
    rfl rfl rfl

/-- C7: with matching arity but a final invocation whose argument count
differs from the expectation count, the outcome is the single distinct
wrong-number-of-arguments failure whose message interpolates the provided
and the expected counts; the arguments are neither truncated nor padded
and the wrapped function is not called. -/
theorem v_wrong_argument_count (func : Fn) (items : List (String × Expectation)) (fname : String)
    (args : List JSValue)
    (hlen : func.arity = items.length) (hargs : args.length ≠ items.length) :
    validateItems func items validateArgument fname args
      = Validation.failure [Descriptor.messageFailure (wrongArgCountMessage fname args items.length)]
    ∧ v func items fname args
      = Except.error (renderVError (Descriptor.messageFailure (wrongArgCountMessage fname args items.length))) := by
  have hitems := validateItems_wrong_count func items validateArgument fname args hlen hargs
  refine ⟨hitems, ?_⟩
  unfold v validateItemsResult
  rw [hitems]
  rfl

/-- C7 witness: a unary wrapped function invoked with two arguments. -/
theorem v_wrong_argument_count_witness :
    validateItems ⟨1, "w", fun _ => JSValue.num 0⟩ [("x", Expectation.kinds [Kind.number])]
        validateArgument "w" [JSValue.num 1, JSValue.num 2]
      = Validation.failure [Descriptor.messageFailure
          (wrongArgCountMessage "w" [JSValue.num 1, JSValue.num 2] 1)]
    ∧ v ⟨1, "w", fun _ => JSValue.num 0⟩ [("x", Expectation.kinds [Kind.number])] "w"
        [JSValue.num 1, JSValue.num 2]
      = Except.error (renderVError (Descriptor.messageFailure
          (wrongArgCountMessage "w" [JSValue.num 1, JSValue.num 2] 1))) :=
  v_wrong_argument_count ⟨1, "w", fun _ => JSValue.num 0⟩ [("x", Expectation.kinds [Kind.number])]
    "w" [JSValue.num 1, JSValue.num 2] rfl (by decide)

/-- C8: under the type-set strategy, validation of an item succeeds
exactly when the actual value matches at least one listed kind, and on
failure the descriptor carries the full kind list and the actual value. -/
theorem validateArgument_kind_set (funcName name : String) (types : List Kind) (actual : JSValue) :
    (validateArgument funcName name (Expectation.kinds types) actual = Validation.success actual
      ↔ (types.any fun t => rIs t actual) = true)
    ∧ ((types.any fun t => rIs t actual) = false →
      validateArgument funcName name (Expectation.kinds types) actual
        = Validation.failure [Descriptor.typeFailure funcName name types actual]) := by
  by_cases hany : (types.any fun t => rIs t actual) = true
  · exact ⟨⟨fun _ => hany, fun _ => by simp [validateArgument, hany]⟩,
      fun hfalse => by rw [hany] at hfalse; cases hfalse⟩
  · have hfail : validateArgument funcName name (Expectation.kinds types) actual
        = Validation.failure [Descriptor.typeFailure funcName name types actual] := by
      simp [validateArgument, hany]
    refine ⟨⟨fun h => ?_, fun h => absurd h hany⟩, fun _ => hfail⟩
    rw [hfail] at h
    cases h

/-- C8 witness: the kind set holding only String rejects the number 1
with the descriptor listing the set and the value. -/
theorem validateArgument_kind_set_witness :
    validateArgument "f" "x" (Expectation.kinds [Kind.string]) (JSValue.num 1)
      = Validation.failure [Descriptor.typeFailure "f" "x" [Kind.string] (JSValue.num 1)] :=
  (validateArgument_kind_set "f" "x" [Kind.string] (JSValue.num 1)).2 rfl

/-- C9 counterexample: at the concrete malformed expectation given as the
non-function value null, the item validator returns a failure whose
message is TypeChecker should be a function; the wording the claim quotes,
expectation must be a validating capability, does not occur anywhere in
that message. -/
theorem validatePropType_message_cex :
    validateArgument "Comp" "p" (Expectation.propType (PropTypeCap.notAFunction JSValue.null)) (JSValue.num 1)
      = Validation.failure [Descriptor.propTypeFailure "Comp" "p" "TypeChecker should be a function"]
    ∧ ¬ ("expectation must be a validating capability".data
        <:+: "TypeChecker should be a function".data) :=
  ⟨rfl, by decide⟩

/-- C9 (amended): a malformed expectation, one that is neither a kind-set
array nor a function, is rejected by the item validator with a returned
failure, not a wrap-time exception and not a success, whose distinguishing
message states TypeChecker should be a function. -/
theorem validatePropType_malformed (componentName propName : String) (w props : JSValue) :
    validatePropType componentName propName (PropTypeCap.notAFunction w) props
      = Validation.failure [Descriptor.propTypeFailure componentName propName "TypeChecker should be a function"]
    ∧ validateArgument componentName propName (Expectation.propType (PropTypeCap.notAFunction w)) props
      = Validation.failure [Descriptor.propTypeFailure componentName propName "TypeChecker should be a function"] :=
  ⟨rfl, rfl⟩

/-- C10: an expectation given as the empty set of kinds rejects every
actual value, since the any-element match over the empty list is false;
the failure descriptor records the empty kind list and the value. -/
theorem validateArgument_empty_kind_set (funcName name : String) (actual : JSValue) :
    validateArgument funcName name (Expectation.kinds []) actual
      = Validation.failure [Descriptor.typeFailure funcName name [] actual] := rfl

/-- C4 (amended): whenever every scope key has an id-reduced actual that
is nil or equals the scope value, mergeScope returns the object merged
with the scope, scope winning on collisions; a nil actual always
satisfies its expectation; and the two repository examples compute as the
claim states, the second succeeding through the id reduction. The
reduction follows the propOr fallback: a present but nil id leaves the
raw object in place rather than reducing to the id, so such an object is
compared raw (and fails against an id value). -/
theorem vMergeScope_success_merge (scope objct : List (String × JSValue))
    (h : ∀ k ∈ scope.map Prod.fst,
      jsIsNil (propOr (lookupObj objct k) "id" (lookupObj objct k)) = true
      ∨ (propOr (lookupObj objct k) "id" (lookupObj objct k) == lookupObj scope k) = true) :
    vMergeScope scope objct = Except.ok (JSValue.obj (mergeRight objct scope))
    ∧ (∀ d p e a, jsIsNil a = true → validateProp d p e a = Validation.success a)
    ∧ vMergeScope [("user", JSValue.num 1), ("project", JSValue.num 2)]
        [("aardvark", JSValue.num 9), ("user", JSValue.num 1)]
      = Except.ok (JSValue.obj
          [("aardvark", JSValue.num 9), ("user", JSValue.num 1), ("project", JSValue.num 2)])
    ∧ vMergeScope [("user", JSValue.num 1), ("project", JSValue.num 2)]
        [("user", JSValue.obj [("id", JSValue.num 1)])]
      = Except.ok (JSValue.obj [("user", JSValue.num 1), ("project", JSValue.num 2)]) := by
  refine ⟨?_, ?_, rfl, rfl⟩
  · have hzip : List.zipWith (fun p a => validateProp (JSValue.obj objct).display p.1 p.2 a)
        ((scope.map Prod.fst).map (fun k => (k, lookupObj scope k)))
        ((scope.map Prod.fst).map (fun k => lookupObj objct k))
        = (scope.map Prod.fst).map (fun k =>
            validateProp (JSValue.obj objct).display k (lookupObj scope k) (lookupObj objct k)) :=
      zipWith_map_same _ _ _ _
    have hall : ∀ k ∈ scope.map Prod.fst,
        validateProp (JSValue.obj objct).display k (lookupObj scope k) (lookupObj objct k)
          = Validation.success (propOr (lookupObj objct k) "id" (lookupObj objct k)) := by
      intro k hk
      rcases h k hk with h1 | h1 <;> simp [validateProp, h1]
    have hfold : foldValidations
        (List.zipWith (fun p a => validateProp (JSValue.obj objct).display p.1 p.2 a)
          ((scope.map Prod.fst).map (fun k => (k, lookupObj scope k)))
          ((scope.map Prod.fst).map (fun k => lookupObj objct k)))
        = Validation.success ((scope.map Prod.fst).map
            (fun k => propOr (lookupObj objct k) "id" (lookupObj objct k))) := by
      rw [hzip]
      exact foldValidations_map_success _ _ _ hall
    have hitems : validateItems
        ⟨(scope.map Prod.fst).length, "", fun _ => JSValue.obj (mergeRight objct scope)⟩
        ((scope.map Prod.fst).map (fun k => (k, lookupObj scope k)))
        validateProp (JSValue.obj objct).display
        ((scope.map Prod.fst).map (fun k => lookupObj objct k))
        = Validation.success (JSValue.obj (mergeRight objct scope)) :=
      validateItems_fold_success (by simp) (by simp) hfold (fun hh => JSValue.noConfusion hh)
    unfold vMergeScope vMergeScopeResult validateItemsResult
    rw [hitems]
    rfl
  · intro d p e a ha
    cases a with
    | undefined => rfl
    | null => rfl
    | bool b => cases ha
    | num n => cases ha
    | str s => cases ha
    | obj fields => cases ha

/-- C4 witness: a one-key scope merged into an object that omits the
key. -/
theorem vMergeScope_success_merge_witness :
    vMergeScope [("user", JSValue.num 1)] [("aardvark", JSValue.num 9)]
      = Except.ok (JSValue.obj (mergeRight [("aardvark", JSValue.num 9)] [("user", JSValue.num 1)])) :=
  (vMergeScope_success_merge [("user", JSValue.num 1)] [("aardvark", JSValue.num 9)]
    (by decide)).1

/-- C4 counterexample: at scope user = 1 and an object whose user value
carries a nil id, the id property is present and its stored value is nil,
yet the reduction keeps the raw object (the propOr default fallback on a
nil stored value), so the id reduction and the nil auto-satisfaction the
claim describes do not apply: the call raises instead of returning the
merge the claim predicts. -/
theorem vMergeScope_nil_id_cex :
    hasKey [("id", JSValue.null)] "id" = true
    ∧ jsIsNil (lookupObj [("id", JSValue.null)] "id") = true
    ∧ propOr (JSValue.obj [("id", JSValue.null)]) "id" (JSValue.obj [("id", JSValue.null)])
        = JSValue.obj [("id", JSValue.null)]
    ∧ vMergeScope [("user", JSValue.num 1)] [("user", JSValue.obj [("id", JSValue.null)])]
        = Except.error "[object], Requires user to equal 1, but got [object]"
    ∧ vMergeScope [("user", JSValue.num 1)] [("user", JSValue.obj [("id", JSValue.null)])]
        ≠ Except.ok (JSValue.obj (mergeRight [("user", JSValue.obj [("id", JSValue.null)])]
            [("user", JSValue.num 1)])) :=
  ⟨rfl, rfl, rfl, rfl, fun h => Except.noConfusion h⟩

/-- C5: mergeScope failure is complete and atomic. At the example scope
and object the pre-boundary outcome carries exactly the two ordered
failure descriptors, one naming expected versus actual for user and one
for project; the raised error renders both in scope-key order; and in
general every run either raises or returns the complete merge, so no
partially merged object can be produced. -/
theorem vMergeScope_failure_atomic :
    vMergeScopeResult [("user", JSValue.num 1), ("project", JSValue.num 2)]
        [("user", JSValue.num 5), ("project", JSValue.num 7)]
      = Except.error
          [Descriptor.propFailure "[object]" "user" (JSValue.num 1) (JSValue.num 5),
           Descriptor.propFailure "[object]" "project" (JSValue.num 2) (JSValue.num 7)]
    ∧ vMergeScope [("user", JSValue.num 1), ("project", JSValue.num 2)]
        [("user", JSValue.num 5), ("project", JSValue.num 7)]
      = Except.error
          "[object], Requires user to equal 1, but got 5; [object], Requires project to equal 2, but got 7"
    ∧ ∀ scope objct,
        (∃ e, vMergeScope scope objct = Except.error e)
        ∨ vMergeScope scope objct = Except.ok (JSValue.obj (mergeRight objct scope)) := by
  refine ⟨rfl, rfl, ?_⟩
  intro scope objct
  cases hres : vMergeScopeResult scope objct with
  | error es =>
    left
    refine ⟨String.intercalate "; " (es.map renderScopeError), ?_⟩
    unfold vMergeScope
    rw [hres]
    rfl
  | ok val =>
    right
    have hval : val = JSValue.obj (mergeRight objct scope) := by
      unfold vMergeScopeResult validateItemsResult at hres
      split at hres
      · next v heq =>
        rcases validateItems_success_value heq with ⟨vs, hv⟩
        cases hres
        exact hv
      · cases hres
    unfold vMergeScope
    rw [hres, hval]
    rfl

end RescapeValidate
